import Mathlib

/-!
# GitUp security enforcement core: a shallow embedding

This file embeds, in Lean, the parts of the GitUp security enforcement
engine that its specification makes claims about:

* `gitup/core/risk_mitigation.py` — `SecurityRiskDetector` (pattern
  catalog, per-file scan, symlink scan, severity assignment, resolution
  filter, assessment assembly) and `SecurityEnforcer`;
* `gitup/core/metadata_manager.py` — `GitUpMetadataManager` (user
  decisions, audit trail, export/import);
* `gitup/core/ignore_manager.py` — `GitUpIgnoreManager.ShouldIgnoreFile`;
* `gitup/core/gitignore_monitor.py` — `GitIgnoreMonitor` (change
  detection, delta analysis, baseline update, global exceptions);
* `gitup/core/security_interface.py` — `SecurityReviewInterface.run_security_review`;
* `gitup/core/gitup_project_manager.py` — compliance determination.

Python machine-level details are modelled as follows: dictionaries with
insertion order become association lists; file system state becomes
explicit record fields; exceptions become `Option`/explicit fallback
values mirroring the source's `except` handlers; wall-clock inputs
(timestamps, uuids, user names) are passed in explicitly.
-/

namespace GitUp

/-- Model of Python `fnmatch.fnmatch(name, pattern)` (POSIX, hence
case-sensitive) restricted to the glob features the program's patterns
use: `*` matches any (possibly empty) sequence, `?` matches one
character, every other character matches itself.  None of the patterns
in the source use `[...]` bracket classes, so they are not modelled.
The match is anchored at both ends, as in `fnmatch`. -/
def globMatchAux : Nat → List Char → List Char → Bool
  | 0, _, _ => false
  | _ + 1, [], s => s.isEmpty
  | f + 1, '*' :: ps, [] => globMatchAux f ps []
  | f + 1, '*' :: ps, c :: cs =>
    globMatchAux f ps (c :: cs) || globMatchAux f ('*' :: ps) cs
  | _ + 1, _ :: _, [] => false
  | f + 1, '?' :: ps, _ :: cs => globMatchAux f ps cs
  | f + 1, p :: ps, c :: cs => p == c && globMatchAux f ps cs

/-- The matcher proper.  Every recursive step of `globMatchAux` shrinks
`pattern.length + s.length` by at least one, so a fuel of
`pattern.length + s.length + 1` can never run out; the fuel exists only
to make the recursion structural. -/
def globMatch (pattern s : List Char) : Bool :=
  globMatchAux (pattern.length + s.length + 1) pattern s

/-- `fnmatch.fnmatch(name, pattern)` with Python's argument order. -/
def fnmatch (name pattern : String) : Bool :=
  globMatch pattern.data name.data

/-- `needle in haystack` on Python strings: substring containment. -/
def strContains (haystack needle : String) : Bool :=
  (List.tails haystack.data).any (fun t => needle.data.isPrefixOf t)

/-- Python `str.lower()`: `Char.toLower` mapped over the characters
(what `String.toLower` does, phrased over the character list). -/
def strLower (s : String) : String := ⟨s.data.map Char.toLower⟩

/-- `SecurityRiskType` (risk_mitigation.py). -/
inductive SecurityRiskType where
  | secret_file
  | sensitive_config
  | large_binary
  | credential_pattern
  | api_key_pattern
  | database_file
  | backup_file
  | log_file
  | temporary_file
  | ide_config
  deriving DecidableEq, Repr

/-- `SecurityRiskLevel` (risk_mitigation.py). -/
inductive SecurityRiskLevel where
  | critical
  | high
  | medium
  | low
  | info
  deriving DecidableEq, Repr

/-- `SecurityRisk` (risk_mitigation.py).  The three optional decision
fields are omitted: they are `None` at detection time and none of the
embedded operations reads them. -/
structure SecurityRisk where
  file_path : String
  risk_type : SecurityRiskType
  risk_level : SecurityRiskLevel
  description : String
  recommendation : String
  pattern_matched : String
  file_size : Nat
  last_modified : String
  is_tracked : Bool
  deriving DecidableEq, Repr

/-- `SecurityAssessment` (risk_mitigation.py). -/
structure SecurityAssessment where
  project_path : String
  timestamp : String
  total_risks : Nat
  critical_risks : Nat
  high_risks : Nat
  medium_risks : Nat
  low_risks : Nat
  risks : List SecurityRisk
  blocking_violations : List SecurityRisk
  security_level : String
  enforcement_active : Bool
  deriving Repr

/-- `SecurityRiskDetector.blocking_thresholds` (risk_mitigation.py
lines 188-192), an insertion-ordered dict from security level to the
blocking risk levels. -/
def blocking_thresholds : List (String × List SecurityRiskLevel) :=
  [("strict", [.critical, .high, .medium]),
   ("moderate", [.critical]),
   ("relaxed", [.critical])]

/-- Python `dict.get(key, default)` on an association list. -/
def dictGet (d : List (String × α)) (key : String) (default : α) : α :=
  match d.find? (fun kv => kv.1 == key) with
  | some kv => kv.2
  | none => default

/-- Count the risks at a given level (`risk_counts` tally in
`_create_assessment`). -/
def countLevel (risks : List SecurityRisk) (lvl : SecurityRiskLevel) : Nat :=
  (risks.filter (fun r => r.risk_level == lvl)).length

/-- `SecurityRiskDetector._create_assessment` (risk_mitigation.py lines
691-724).  `project_path` and the timestamp are passed in. -/
def createAssessment (project_path timestamp security_level : String)
    (risks : List SecurityRisk) : SecurityAssessment :=
  let blocking_levels := dictGet blocking_thresholds security_level [.critical]
  let blocking_violations := risks.filter (fun r => blocking_levels.contains r.risk_level)
  { project_path := project_path
    timestamp := timestamp
    total_risks := risks.length
    critical_risks := countLevel risks .critical
    high_risks := countLevel risks .high
    medium_risks := countLevel risks .medium
    low_risks := countLevel risks .low
    risks := risks
    blocking_violations := blocking_violations
    security_level := security_level
    enforcement_active := decide (0 < blocking_violations.length) }

/-- `SecurityRiskDetector.risk_patterns` (risk_mitigation.py lines
138-175), in dict insertion order. -/
def risk_patterns : List (SecurityRiskType × List String) :=
  [(.secret_file,
     ["*.key", "*.pem", "*.p12", "*.pfx", "*.jks", "*.keystore",
      "*.crt", "*.csr", "*.der", "*.p7b", "*.p7c", "*.p7r",
      "secrets.*", "*secret*", "*password*", "*credential*",
      "*.env", ".env*", "config/secrets.*", "auth.*"]),
   (.sensitive_config,
     ["config.json", "settings.json", "database.json",
      "*.conf", "*.cfg", "*.ini", "*.properties",
      "web.config", "app.config", "appsettings.json",
      "connection.json", "datasource.*"]),
   (.large_binary,
     ["*.exe", "*.dll", "*.so", "*.dylib", "*.bin",
      "*.iso", "*.img", "*.dmg", "*.zip", "*.rar"]),
   (.database_file,
     ["*.db", "*.sqlite", "*.sqlite3", "*.mdb", "*.accdb",
      "*.dump", "*.sql", "*.bak", "data/*.db", "database.*"]),
   (.backup_file,
     ["*.backup", "*.bak", "*.old", "*.orig", "*.tmp",
      "*~", "*.swp", "*.swo", "backup/*", "backups/*"]),
   (.log_file,
     ["*.log", "logs/*", "log/*", "error.log", "debug.log",
      "access.log", "application.log", "audit.log"]),
   (.temporary_file,
     ["temp/*", "tmp/*", "*.tmp", "*.temp", ".DS_Store",
      "Thumbs.db", "desktop.ini", "*.cache"]),
   (.ide_config,
     [".vscode/settings.json", ".idea/*", "*.iml",
      ".eclipse/*", ".settings/*", "*.sublime-*"])]

/-- `SecurityRiskDetector.credential_patterns` (risk_mitigation.py lines
178-185): the six credential regexes, kept as their literal source text.
Their matching semantics are abstracted by a `credentialMatch`
parameter wherever content is scanned. -/
def credential_patterns : List String :=
  ["(?i)(api[_-]?key|apikey)\\s*[:=]\\s*[\"\x27]?[a-zA-Z0-9_-]\x7b16,\x7d[\"\x27]?",
   "(?i)(secret[_-]?key|secretkey)\\s*[:=]\\s*[\"\x27]?[a-zA-Z0-9_-]\x7b16,\x7d[\"\x27]?",
   "(?i)(access[_-]?token|accesstoken)\\s*[:=]\\s*[\"\x27]?[a-zA-Z0-9_-]\x7b16,\x7d[\"\x27]?",
   "(?i)(password|passwd|pwd)\\s*[:=]\\s*[\"\x27]?[^\\s\"\x27]\x7b8,\x7d[\"\x27]?",
   "(?i)(database[_-]?url|db[_-]?url)\\s*[:=]\\s*[\"\x27]?[^\\s\"\x27]+[\"\x27]?",
   "(?i)(private[_-]?key|privatekey)\\s*[:=]\\s*[\"\x27]?[^\\s\"\x27]+[\"\x27]?"]

/-- `base_levels` dict in `_determine_risk_level` (risk_mitigation.py
lines 606-617); `.get(risk_type, MEDIUM)` never needs its default since
the dict is total over the enum. -/
def base_levels : SecurityRiskType → SecurityRiskLevel
  | .secret_file => .critical
  | .credential_pattern => .critical
  | .api_key_pattern => .critical
  | .sensitive_config => .high
  | .database_file => .high
  | .large_binary => .medium
  | .backup_file => .medium
  | .log_file => .low
  | .temporary_file => .low
  | .ide_config => .info

/-- The sensitive-location test in `_determine_risk_level` (line 631):
`any(sensitive in file_path.lower() for sensitive in [...])`. -/
def sensitiveLocation (file_path : String) : Bool :=
  ["config", "secret", "credential", "auth"].any
    (fun kw => strContains (strLower file_path) kw)

/-- `SecurityRiskDetector._determine_risk_level` (risk_mitigation.py
lines 603-637).  Note the source `return`s from inside the
`if is_tracked` block for HIGH/MEDIUM/LOW base levels, so the
sensitive-location branch runs only when that block falls through. -/
def determineRiskLevel (risk_type : SecurityRiskType) (file_path : String)
    (is_tracked : Bool) : SecurityRiskLevel :=
  let base_level := base_levels risk_type
  if is_tracked && base_level == .high then .critical
  else if is_tracked && base_level == .medium then .high
  else if is_tracked && base_level == .low then .medium
  else if sensitiveLocation file_path && base_level == .high then .critical
  else if sensitiveLocation file_path && base_level == .medium then .high
  else base_level

/-- `SecurityRiskDetector._get_risk_description` (risk_mitigation.py
lines 639-654). -/
def getRiskDescription (risk_type : SecurityRiskType) (file_path : String) : String :=
  match risk_type with
  | .secret_file => "Potential secret file detected: " ++ file_path
  | .credential_pattern => "Credential pattern found in: " ++ file_path
  | .api_key_pattern => "API key pattern detected in: " ++ file_path
  | .sensitive_config => "Sensitive configuration file: " ++ file_path
  | .database_file => "Database file detected: " ++ file_path
  | .large_binary => "Large binary file: " ++ file_path
  | .backup_file => "Backup file detected: " ++ file_path
  | .log_file => "Log file detected: " ++ file_path
  | .temporary_file => "Temporary file detected: " ++ file_path
  | .ide_config => "IDE configuration file: " ++ file_path

/-- `SecurityRiskDetector._get_risk_recommendation` (risk_mitigation.py
lines 656-666). -/
def getRiskRecommendation (risk_level : SecurityRiskLevel) : String :=
  if risk_level == .critical then
    "Immediate action required: Remove file or add to .gitignore"
  else if risk_level == .high then
    "Review file contents and consider adding to .gitignore"
  else if risk_level == .medium then
    "Consider adding to .gitignore or .gitupignore"
  else
    "Review and add to appropriate ignore file if needed"

/-- `SecurityRiskDetector._create_risk` (risk_mitigation.py lines
580-601). -/
def createRisk (file_path : String) (risk_type : SecurityRiskType)
    (pattern_matched : String) (file_size : Nat) (last_modified : String)
    (is_tracked : Bool) : SecurityRisk :=
  let risk_level := determineRiskLevel risk_type file_path is_tracked
  { file_path := file_path
    risk_type := risk_type
    risk_level := risk_level
    description := getRiskDescription risk_type file_path
    recommendation := getRiskRecommendation risk_level
    pattern_matched := pattern_matched
    file_size := file_size
    last_modified := last_modified
    is_tracked := is_tracked }

/-- What a directory entry is, as the scanner sees it: a regular file
with its content, or a symbolic link with its textual target and — for
stating symlink containment — the content that lives behind the target.
The source never materialises that content for links; carrying it in
the model lets us prove so. -/
inductive FileKind where
  | regular (content : String)
  | symlink (target : String) (targetContent : String)
  deriving Repr

/-- A scannable entry with the metadata `_scan_file` collects
(project-relative path, size, mtime, git tracking status). -/
structure FileEntry where
  rel_path : String
  size : Nat
  mtime : String
  tracked : Bool
  kind : FileKind
  deriving Repr

/-- The pattern-glob loop shared by `_scan_file` and
`_scan_symbolic_link`: for each risk type, the first matching pattern
(if any) produces one risk (`break` after the first match per type). -/
def patternRisks (rel_path : String) (mkRisk : SecurityRiskType → String → SecurityRisk) :
    List SecurityRisk :=
  risk_patterns.filterMap (fun tp =>
    match tp.2.find? (fun pat => fnmatch rel_path pat) with
    | some pat => some (mkRisk tp.1 pat)
    | none => none)

/-- `suspicious_targets` list in `_scan_symbolic_link` (risk_mitigation.py
lines 539-542). -/
def suspicious_targets : List String :=
  ["*.env*", "*.secret*", "*.key*", "*.credential*",
   "*password*", "*config/secret*", "*private*"]

/-- `SecurityRiskDetector._scan_symbolic_link` (risk_mitigation.py lines
479-578), happy path: only the link's own relative path is matched
against the category globs, and the lowercased textual target against
`suspicious_targets` (first match only).  The link's target content is
never consulted. -/
def scanSymbolicLink (rel_path : String) (target : String) (size : Nat)
    (mtime : String) (tracked : Bool) : List SecurityRisk :=
  let pathRisks := patternRisks rel_path (fun tp pat =>
    let r := createRisk rel_path tp ("symlink_path:" ++ pat) size mtime tracked
    { r with
      description := "Symbolic link with suspicious name: " ++ rel_path ++ " -> " ++ target
      recommendation := "Rename symlink to non-sensitive name or add to .gitignore" })
  let targetRisks :=
    match suspicious_targets.find? (fun pat => fnmatch (strLower target) pat) with
    | some pat =>
      let r := createRisk rel_path .secret_file ("symlink_target:" ++ pat) size mtime tracked
      [{ r with
         description := "Symbolic link points to suspicious location: " ++ rel_path ++ " -> " ++ target
         recommendation := "Review symlink target for sensitivity. Consider .gitignore if appropriate." }]
    | none => []
  pathRisks ++ targetRisks

/-- `_is_text_file` (risk_mitigation.py lines 682-689): the first 1024
bytes contain no NUL byte. -/
def isTextFile (content : String) : Bool :=
  !((content.data.take 1024).contains (Char.ofNat 0))

/-- `SecurityRiskDetector._scan_file_content` (risk_mitigation.py lines
447-477).  `credentialMatch pat content` abstracts
`re.findall(pat, content) != []`; the risk type is `api_key_pattern`
when the regex text contains `api`, else `credential_pattern`. -/
def scanFileContent (credentialMatch : String → String → Bool)
    (content rel_path : String) (size : Nat) (mtime : String) (tracked : Bool) :
    List SecurityRisk :=
  (credential_patterns.filter (fun pat => credentialMatch pat content)).map
    (fun pat =>
      let tp : SecurityRiskType :=
        if strContains (strLower pat) "api" then .api_key_pattern else .credential_pattern
      createRisk rel_path tp pat size mtime tracked)

/-- `large_file_threshold` (risk_mitigation.py line 195), in MB. -/
def large_file_threshold : Nat := 10

/-- `SecurityRiskDetector._scan_file` (risk_mitigation.py lines
390-445): symbolic links are dispatched to `_scan_symbolic_link`
before anything else; regular files get pattern risks, content risks
(text files under 1 MiB) and a large-file risk over 10 MiB. -/
def scanFile (credentialMatch : String → String → Bool) (e : FileEntry) :
    List SecurityRisk :=
  match e.kind with
  | .symlink target _ => scanSymbolicLink e.rel_path target e.size e.mtime e.tracked
  | .regular content =>
    let pat := patternRisks e.rel_path (fun tp p =>
      createRisk e.rel_path tp p e.size e.mtime e.tracked)
    let contentRisks :=
      if isTextFile content && decide (e.size < 1024 * 1024) then
        scanFileContent credentialMatch content e.rel_path e.size e.mtime e.tracked
      else []
    let largeRisks :=
      if decide (large_file_threshold * 1024 * 1024 < e.size) then
        [createRisk e.rel_path .large_binary
          ("file_size > " ++ toString large_file_threshold ++ "MB")
          e.size e.mtime e.tracked]
      else []
    pat ++ contentRisks ++ largeRisks

/-! ## Ignore manager (`ignore_manager.py`) and the resolution filter -/

/-- The on-disk ignore state the resolution filter consults:
the user's `.gitignore` (raw lines, `none` when absent), the
`.gitupignore` shadow ignore, the ignore manager's loaded user-decision
dict (pattern → decision value), and the absolute project path used by
`Path.relative_to`. -/
structure IgnoreState where
  projectPath : String
  gitignore : Option (List String)
  gitupignore : Option (List String)
  userDecisions : List (String × String)

/-- `Path(p).relative_to(root)` for string paths: succeeds only when
`p` lies under the absolute `root`; otherwise Python raises
`ValueError`, modelled as `none`. -/
def relativeToProject (p root : String) : Option String :=
  if p == root then some ""
  else if (root ++ "/").data.isPrefixOf p.data then
    some (p.drop (root.length + 1))
  else none

/-- Strip + comment-filter applied when reading ignore-style files. -/
def readPatternLines (lines : List String) : List String :=
  (lines.map String.trim).filter (fun l => !l.isEmpty && !l.startsWith "#")

/-- `SecurityRiskDetector._is_file_ignored` (risk_mitigation.py lines
310-330).  For the project-relative paths risks carry,
`Path(file_path).relative_to(self.project_path)` raises `ValueError`;
the blanket `except` swallows it and the function returns `False`. -/
def isFileIgnored (st : IgnoreState) (file_path : String) : Bool :=
  match st.gitignore with
  | none => false
  | some lines =>
    match relativeToProject file_path st.projectPath with
    | none => false
    | some rel => (readPatternLines lines).any (fun pat => fnmatch rel pat)

/-- `GitUpIgnoreManager._GetRelativePath` (ignore_manager.py lines
371-376): `relative_to` raises for project-relative input and the
`except` returns the path unchanged. -/
def getRelativePath (st : IgnoreState) (p : String) : String :=
  match relativeToProject p st.projectPath with
  | some rel => rel
  | none => p

/-- `GitUpIgnoreManager._IsGitIgnored` (ignore_manager.py lines 378-388). -/
def isGitIgnoredMgr (st : IgnoreState) (p : String) : Bool :=
  match st.gitignore with
  | none => false
  | some lines => (readPatternLines lines).any (fun pat => fnmatch p pat)

/-- `GitUpIgnoreManager._IsGitUpIgnored` (ignore_manager.py lines
390-405). -/
def isGitUpIgnored (st : IgnoreState) (p : String) : Bool :=
  match st.gitupignore with
  | none => false
  | some lines => (readPatternLines lines).any (fun pat => fnmatch p pat)

/-- `GitUpIgnoreManager.IsUserApproved` (ignore_manager.py lines
254-270): the first decision whose pattern glob-matches decides;
approval means its decision value is `safe`. -/
def isUserApproved (st : IgnoreState) (p : String) : Bool :=
  match st.userDecisions.find? (fun kv => fnmatch p kv.1) with
  | some kv => kv.2 == "safe"
  | none => false

/-- `GitUpIgnoreManager.ShouldIgnoreFile` (ignore_manager.py lines
228-252). -/
def shouldIgnoreFile (st : IgnoreState) (p : String) : Bool × String :=
  let rel := getRelativePath st p
  if isGitIgnoredMgr st rel then (true, "matched .gitignore")
  else if isGitUpIgnored st rel then (true, "matched .gitupignore")
  else if isUserApproved st rel then (true, "user approved")
  else (false, "not ignored")

/-- `SecurityRiskDetector._is_credential_pattern_resolved`
(risk_mitigation.py lines 332-355).  `SecurityRisk` has no
`line_number` field, so `risk.line_number` on line 340 raises
`AttributeError`; the blanket `except Exception` on line 354 turns every
call into `False`, regardless of the file's current content. -/
def isCredentialPatternResolved (_ : SecurityRisk) : Bool := false

/-- `SecurityRiskDetector._filter_resolved_risks` (risk_mitigation.py
lines 287-308). -/
def filterResolvedRisks (st : IgnoreState) (risks : List SecurityRisk) :
    List SecurityRisk :=
  risks.filter (fun r =>
    !(isFileIgnored st r.file_path) &&
    !(shouldIgnoreFile st r.file_path).1 &&
    !((r.risk_type == .credential_pattern || r.risk_type == .api_key_pattern) &&
      isCredentialPatternResolved r))

/-! ## Ignore monitor (`gitignore_monitor.py`) -/

/-- `GitIgnoreMonitor.global_exceptions` default list
(gitignore_monitor.py lines 86-96). -/
def default_global_exceptions : List String :=
  ["*codebase.txt", "*backup.py", "*.bak", "*_backup.*", "docs/*.md",
   "*.readme", "changelog.*", "*.example", "template.*"]

/-- `GitIgnoreMonitor.check_global_exception_coverage`
(gitignore_monitor.py lines 232-257) for project-relative paths: first
matching global-exception glob wins. -/
def checkGlobalExceptionCoverage (globalExceptions : List String)
    (file_path : String) : Bool × String :=
  match globalExceptions.find? (fun pat => fnmatch file_path pat) with
  | some pat => (true, pat)
  | none => (false, "")

/-- `GitIgnoreChange` (gitignore_monitor.py). -/
structure GitIgnoreChange where
  pattern : String
  change_type : String
  security_impact : String
  affected_files : List String
  risk_level : String
  deriving DecidableEq, Repr

/-- `GitIgnoreDelta` (gitignore_monitor.py). -/
structure GitIgnoreDelta where
  timestamp : String
  has_changes : Bool
  added_patterns : List String
  removed_patterns : List String
  security_changes : List GitIgnoreChange
  violations_resolved : List String
  new_exposures : List String
  global_exceptions_matched : List String
  deriving Repr

/-- The monitor's observable state: the current `.gitignore` (raw
lines, `none` if absent), the baseline copy `gi_baseline.dat`, the
stored hash `gi_baseline.hash` — MD5 equality is modelled as content
equality, so the stored hash is kept as the hashed content — the
project's file listing (for `_find_files_matching_pattern`) and the
configured global exceptions. -/
structure MonitorState where
  gitignore : Option (List String)
  baseline : Option (List String)
  hashFile : Option (List String)
  projectFiles : List String
  globalExceptions : List String

/-- `GitIgnoreMonitor.detect_gitignore_changes` (gitignore_monitor.py
lines 100-126). -/
def detectGitignoreChanges (st : MonitorState) : Bool × String :=
  match st.gitignore with
  | none =>
    if st.baseline.isSome then (true, "gitignore_deleted")
    else (false, "no_gitignore")
  | some content =>
    match st.hashFile with
    | none => (true, "first_scan")
    | some stored =>
      if content ≠ stored then (true, "gitignore_modified")
      else (false, "unchanged")

/-- `GitIgnoreMonitor._parse_gitignore_patterns` (gitignore_monitor.py
lines 326-356): strip, drop blanks and comments, strip a leading `./`;
the result is a set, modelled as a deduplicated list.  A missing file
(`open` raising) yields the empty set. -/
def parseGitignorePatterns (file : Option (List String)) : List String :=
  match file with
  | none => []
  | some lines =>
    (((lines.map String.trim).filter (fun l => !l.isEmpty && !l.startsWith "#")).map
      (fun l => if l.startsWith "./" then l.drop 2 else l)).dedup

/-- `security_patterns` local list in `_analyze_pattern_addition` and
`_analyze_pattern_removal` (gitignore_monitor.py lines 377-380 and
414-417). -/
def monitor_security_patterns : List String :=
  ["*.env", ".env*", "secrets.*", "*.key", "*.pem",
   "config/production/*", "*.log", "logs/*", "*.db"]

/-- `GitIgnoreMonitor._find_files_matching_pattern` (gitignore_monitor.py
lines 433-460). -/
def findFilesMatchingPattern (st : MonitorState) (pattern : String) : List String :=
  (st.projectFiles.filter (fun f => fnmatch f pattern)).take 20

/-- `GitIgnoreMonitor._analyze_pattern_addition` (gitignore_monitor.py
lines 358-394). -/
def analyzePatternAddition (st : MonitorState) (pattern : String) : GitIgnoreChange :=
  let affected := findFilesMatchingPattern st pattern
  let hit := monitor_security_patterns.any
    (fun sec => fnmatch pattern sec || pattern == sec)
  { pattern := pattern
    change_type := "added"
    security_impact := if hit then "resolves_violations" else "neutral"
    affected_files := affected
    risk_level := if hit then "high" else "info" }

/-- `GitIgnoreMonitor._analyze_pattern_removal` (gitignore_monitor.py
lines 396-431). -/
def analyzePatternRemoval (st : MonitorState) (pattern : String) : GitIgnoreChange :=
  let affected := findFilesMatchingPattern st pattern
  let hit := monitor_security_patterns.any
    (fun sec => fnmatch pattern sec || pattern == sec)
  { pattern := pattern
    change_type := "removed"
    security_impact := if hit then "creates_exposures" else "neutral"
    affected_files := affected
    risk_level := if hit then "high" else "info" }

/-- `GitIgnoreMonitor._matches_global_exception` (gitignore_monitor.py
lines 462-467). -/
def matchesGlobalException (st : MonitorState) (pattern : String) : Bool :=
  st.globalExceptions.any (fun exc => fnmatch pattern exc || pattern == exc)

/-- `GitIgnoreMonitor.analyze_gitignore_delta` (gitignore_monitor.py
lines 128-201).  The function only reads state (its delta logging has
no bearing on any later read), so it is a pure function of
`MonitorState`; `timestamp` is passed in. -/
def analyzeGitignoreDelta (st : MonitorState) (timestamp : String) : GitIgnoreDelta :=
  let det := detectGitignoreChanges st
  if !det.1 then
    { timestamp := timestamp
      has_changes := false
      added_patterns := []
      removed_patterns := []
      security_changes := []
      violations_resolved := []
      new_exposures := []
      global_exceptions_matched := [] }
  else
    let current := parseGitignorePatterns st.gitignore
    let baseline := parseGitignorePatterns st.baseline
    let added := current.filter (fun p => !(baseline.contains p))
    let removed := baseline.filter (fun p => !(current.contains p))
    let addedChanges := added.map (analyzePatternAddition st)
    let removedChanges := removed.map (analyzePatternRemoval st)
    { timestamp := timestamp
      has_changes := true
      added_patterns := added
      removed_patterns := removed
      security_changes := addedChanges ++ removedChanges
      violations_resolved :=
        (addedChanges.filter (fun c => c.security_impact == "resolves_violations")).flatMap
          (fun c => c.affected_files)
      new_exposures :=
        (removedChanges.filter (fun c => c.security_impact == "creates_exposures")).flatMap
          (fun c => c.affected_files)
      global_exceptions_matched := added.filter (matchesGlobalException st) }

/-- `GitIgnoreMonitor.update_baseline` (gitignore_monitor.py lines
203-230): copy the current file over the baseline and store its hash;
with no `.gitignore`, delete both baseline artefacts. -/
def updateBaseline (st : MonitorState) : MonitorState :=
  match st.gitignore with
  | some content => { st with baseline := some content, hashFile := some content }
  | none => { st with baseline := none, hashFile := none }

/-! ## Metadata manager (`metadata_manager.py`) -/

/-- `DecisionType` (metadata_manager.py). -/
inductive DecisionType where
  | safe | ignore | rename | edit | review
  deriving DecidableEq, Repr

/-- `ActionType` (metadata_manager.py). -/
inductive ActionType where
  | created | updated | decision | reviewed | expired | imported | exported
  deriving DecidableEq, Repr

/-- `UserDecision` record of the metadata manager (metadata_manager.py
lines 43-58).  Timestamps are modelled as `Nat` so expiry comparisons
stay arithmetic. -/
structure MMUserDecision where
  Pattern : String
  Decision : DecisionType
  Reason : String
  Timestamp : Nat
  UserId : String
  Confidence : Rat
  AutoReview : Option Nat
  ExpiresAt : Option Nat
  Tags : List String
  deriving DecidableEq, Repr

/-- `AuditEntry` of the metadata manager (metadata_manager.py lines
61-70); `Details` is modelled as key/value pairs of strings. -/
structure MMAuditEntry where
  Id : String
  Action : ActionType
  Timestamp : Nat
  UserId : String
  Details : List (String × String)
  GitUpVersion : String
  ProjectHash : String
  deriving DecidableEq, Repr

/-- `SecurityMetadata` (metadata_manager.py lines 73-83). -/
structure MMSecurityMetadata where
  SecurityLevel : String
  LastSecurityCheck : Nat
  NextSecurityCheck : Nat
  SecurityScore : Rat
  RiskLevel : String
  CriticalGaps : Nat
  HighGaps : Nat
  TotalGaps : Nat
  deriving DecidableEq, Repr

/-- `ProjectMetadata` (metadata_manager.py lines 86-97). -/
structure MMProjectMetadata where
  ProjectType : String
  ProjectName : String
  ProjectPath : String
  ProjectHash : String
  GitRemoteUrl : Option String
  LastModified : Option Nat
  FileCount : Nat
  DirectoryCount : Nat
  deriving DecidableEq, Repr

/-- The manager's `self.Metadata` dict: version header, insertion-ordered
decision dict (id → decision), audit trail, the two metadata headers and
the bookkeeping timestamp. -/
structure Metadata where
  version : String
  created : Nat
  user_decisions : List (String × MMUserDecision)
  audit_trail : List MMAuditEntry
  security_metadata : MMSecurityMetadata
  project_metadata : MMProjectMetadata
  last_updated : Nat
  deriving DecidableEq, Repr

/-- Ambient inputs the manager draws from the environment when it
writes an audit entry: fresh uuid, wall-clock time, `$USER`, and the
project hash. -/
structure AuditEnv where
  entryId : String
  now : Nat
  userId : String
  projectHash : String
  deriving Repr

/-- `GitUpMetadataManager._AddAuditEntry` (metadata_manager.py lines
596-620), including the keep-most-recent-1000 truncation. -/
def addAuditEntry (m : Metadata) (env : AuditEnv) (action : ActionType)
    (details : List (String × String)) : Metadata :=
  let entry : MMAuditEntry :=
    { Id := env.entryId
      Action := action
      Timestamp := env.now
      UserId := env.userId
      Details := details
      GitUpVersion := "0.2.0"
      ProjectHash := env.projectHash }
  let trail := m.audit_trail ++ [entry]
  let trail := if 1000 < trail.length then trail.drop (trail.length - 1000) else trail
  { m with audit_trail := trail }

/-- `GitUpMetadataManager._IsDecisionExpired` (metadata_manager.py lines
631-641). -/
def isDecisionExpired (now : Nat) (d : MMUserDecision) : Bool :=
  match d.ExpiresAt with
  | none => false
  | some e => decide (e ≤ now)

/-- `GitUpMetadataManager._ExpireDecision` (metadata_manager.py lines
643-654): audit entry then deletion from the active dict. -/
def expireDecision (m : Metadata) (env : AuditEnv) (decisionId : String) : Metadata :=
  match m.user_decisions.find? (fun kv => kv.1 == decisionId) with
  | none => m
  | some kv =>
    let m := addAuditEntry m env .expired
      [("decision_id", decisionId), ("pattern", kv.2.Pattern)]
    { m with user_decisions := m.user_decisions.filter (fun e => e.1 != decisionId) }

/-- `GitUpMetadataManager.GetUserDecision` (metadata_manager.py lines
172-191): linear scan of the decision dict for the first entry whose
stored `Pattern` string equals the argument exactly; an expired match is
expired (state change) and `None` is returned.  Returns the result
together with the possibly-updated metadata. -/
def getUserDecision (m : Metadata) (env : AuditEnv) (pattern : String) :
    Option MMUserDecision × Metadata :=
  match m.user_decisions.find? (fun kv => kv.2.Pattern == pattern) with
  | none => (none, m)
  | some kv =>
    if isDecisionExpired env.now kv.2 then (none, expireDecision m env kv.1)
    else (some kv.2, m)

/-- Python `dict.update` on an insertion-ordered association list:
existing keys are overwritten in place, new keys appended in order. -/
def dictUpdate (d new : List (String × α)) : List (String × α) :=
  (d.map (fun kv =>
    match new.find? (fun nv => nv.1 == kv.1) with
    | some nv => (kv.1, nv.2)
    | none => kv)) ++
  new.filter (fun nv => !(d.any (fun kv => kv.1 == nv.1)))

/-- `GitUpMetadataManager._MergeMetadata` (metadata_manager.py lines
697-706): decisions are dict-updated, the audit trail extended, every
other top-level key replaced by the imported value. -/
def mergeMetadata (m imported : Metadata) : Metadata :=
  { version := imported.version
    created := imported.created
    user_decisions := dictUpdate m.user_decisions imported.user_decisions
    audit_trail := m.audit_trail ++ imported.audit_trail
    security_metadata := imported.security_metadata
    project_metadata := imported.project_metadata
    last_updated := imported.last_updated }

/-- `GitUpMetadataManager.ExportMetadata` (metadata_manager.py lines
391-412): the exported file holds the current metadata verbatim; the
in-memory state then gains an `exported` audit entry (no save, so
`last_updated` is untouched).  Returns (exported file, new state). -/
def exportMetadata (m : Metadata) (env : AuditEnv) (outputPath : String) :
    Metadata × Metadata :=
  (m, addAuditEntry m env .exported [("export_path", outputPath)])

/-- Merge strategies of `ImportMetadata`. -/
inductive MergeStrategy where
  | overwrite | merge | append
  deriving DecidableEq, Repr

/-- `GitUpMetadataManager.ImportMetadata` (metadata_manager.py lines
414-445): replace/merge the metadata, append an `imported` audit
entry, then `_SaveMetadata` stamps `last_updated`. -/
def importMetadata (m : Metadata) (fileData : Metadata)
    (strategy : MergeStrategy) (env : AuditEnv) (importPath : String) : Metadata :=
  let m' :=
    match strategy with
    | .overwrite => fileData
    | .merge => mergeMetadata m fileData
    | .append => mergeMetadata m fileData
  let m'' := addAuditEntry m' env .imported
    [("import_path", importPath), ("merge_strategy", "overwrite")]
  { m'' with last_updated := env.now }

/-! ## Enforcer (`risk_mitigation.py`, `SecurityEnforcer`) -/

/-- One element of the persisted `violations` array, as
`check_violations` reads it: the risk fields plus the `resolved` flag
(`violation_data.get("resolved", False)`). -/
structure ViolationEntry where
  risk : SecurityRisk
  resolved : Bool
  deriving DecidableEq, Repr

/-- The persisted `violations.json`: absent, unparseable, or parsed
content (timestamp and security level header plus entries). -/
inductive ViolationsFile where
  | missing
  | corrupt
  | present (timestamp : String) (security_level : String)
      (entries : List ViolationEntry)
  deriving DecidableEq, Repr

/-- `SecurityEnforcer.check_violations` (risk_mitigation.py lines
748-782): a missing file or any exception while reading or decoding
yields `(False, [])`; otherwise the unresolved entries are returned. -/
def checkViolations : ViolationsFile → Bool × List SecurityRisk
  | .missing => (false, [])
  | .corrupt => (false, [])
  | .present _ _ entries =>
    let violations := (entries.filter (fun e => !e.resolved)).map (fun e => e.risk)
    (decide (0 < violations.length), violations)

/-- `SecurityEnforcer.save_violations` (risk_mitigation.py lines
784-799). -/
def saveViolations (timestamp security_level : String)
    (violations : List SecurityRisk) : ViolationsFile :=
  .present timestamp security_level
    (violations.map (fun r => { risk := r, resolved := false }))

/-- `SecurityViolationError` payload (utils/exceptions.py). -/
structure SecurityViolationError where
  message : String
  violations : List SecurityRisk
  deriving Repr

/-- `SecurityEnforcer.enforce_security` (risk_mitigation.py lines
801-819): raises exactly when `check_violations` reports violations. -/
def enforceSecurity (operation : String) (vf : ViolationsFile) :
    Except SecurityViolationError Unit :=
  let cv := checkViolations vf
  if cv.1 then
    .error
      { message := "Security violations detected. Operation " ++ operation ++ " blocked."
        violations := cv.2 }
  else .ok ()

/-- `SecurityEnforcer.clear_violations` (risk_mitigation.py lines
821-827): unlink the violations file. -/
def clearViolations (_ : ViolationsFile) : ViolationsFile := .missing

/-! ## Review orchestrator (`security_interface.py`) -/

/-- The dict `run_security_review` returns; keys absent in a given
branch are `none`. -/
structure ReviewResult where
  status : String
  risks_resolved : Option Nat
  blocking_violations : Option Nat
  total_risks : Nat
  deriving DecidableEq, Repr

/-- `SecurityReviewInterface.run_security_review` (security_interface.py
lines 76-128), with the scan's assessment passed in and the enforcer's
persisted violations file threaded through.  The interactive flow
(`_interactive_review`, a UI dialogue) is abstracted by the
`interactiveOutcome` parameter; everything the claims quantify over
happens before that branch. -/
def runSecurityReview (assessment : SecurityAssessment) (interactive : Bool)
    (interactiveOutcome : ReviewResult × ViolationsFile)
    (timestamp : String) (enf : ViolationsFile) : ReviewResult × ViolationsFile :=
  if assessment.total_risks == 0 then
    ({ status := "clean", risks_resolved := some 0, blocking_violations := none,
       total_risks := 0 }, enf)
  else if interactive then
    interactiveOutcome
  else if !assessment.blocking_violations.isEmpty then
    ({ status := "violations_detected"
       risks_resolved := none
       blocking_violations := some assessment.blocking_violations.length
       total_risks := assessment.total_risks },
     saveViolations timestamp assessment.security_level assessment.blocking_violations)
  else
    ({ status := "warnings_only", risks_resolved := none, blocking_violations := none,
       total_risks := assessment.total_risks }, enf)

/-! ## Compliance evaluator (`gitup_project_manager.py`) -/

/-- The slice of `ProjectAnalysis` the compliance check consumes. -/
structure AnalysisSlice where
  risk_level : String
  potential_secrets : List String
  sensitive_files : List String
  large_files : List String
  deriving Repr

/-- `_check_file_compliance` output (gitup_project_manager.py lines
515-522). -/
structure FileCompliance where
  gitupignore_exists : Bool
  gitupignore_meta_exists : Bool
  audit_log_exists : Bool
  config_exists : Bool
  deriving Repr

/-- The fields of the `compliance_results` dict that the determination
rule and the callers read. -/
structure ComplianceResults where
  timestamp : String
  overall_status : String
  potential_secrets : Nat
  sensitive_files : Nat
  large_files : Nat
  file_compliance : FileCompliance
  deriving Repr

/-- `GitUpProjectManager._determine_compliance_status`
(gitup_project_manager.py lines 559-567). -/
def determineComplianceStatus (potential_secrets : Nat)
    (gitupignore_exists : Bool) : String :=
  if 0 < potential_secrets then "RISK_DETECTED"
  else if gitupignore_exists then "COMPLIANT"
  else "PARTIAL_COMPLIANCE"

/-- `GitUpProjectManager.run_compliance_check` (gitup_project_manager.py
lines 233-280), reduced to the data the determination rule consumes:
the fresh analysis's counts and the file-presence checks. -/
def runComplianceCheck (timestamp : String) (analysis : AnalysisSlice)
    (fc : FileCompliance) : ComplianceResults :=
  { timestamp := timestamp
    overall_status :=
      determineComplianceStatus analysis.potential_secrets.length fc.gitupignore_exists
    potential_secrets := analysis.potential_secrets.length
    sensitive_files := analysis.sensitive_files.length
    large_files := analysis.large_files.length
    file_compliance := fc }

/-! ## Spec-side definitions (for refinement comparisons)

The following definitions transcribe the specification's words, not the
source; they exist solely to be compared against the source-derived
definitions above. -/

/-- Spec side: the blocking thresholds as the spec states them —
"strict blocks critical, high and medium; moderate and relaxed block
critical only". -/
def specBlockingLevels (level : String) : List SecurityRiskLevel :=
  if level == "strict" then [.critical, .high, .medium] else [.critical]

/-- Spec side: "shift severity up by one step (low→medium→high→critical,
saturating)".  `info` is outside the spec's chain and is left fixed. -/
def shiftUp : SecurityRiskLevel → SecurityRiskLevel
  | .low => .medium
  | .medium => .high
  | .high => .critical
  | .critical => .critical
  | .info => .info

/-- Spec side: the severity rule exactly as the claim words it — shift
the baseline up one step when tracked, and one further step when the
path contains a sensitive keyword and the baseline was high or medium. -/
def claimedRiskLevel (risk_type : SecurityRiskType) (file_path : String)
    (is_tracked : Bool) : SecurityRiskLevel :=
  let base := base_levels risk_type
  let afterTracking := if is_tracked then shiftUp base else base
  if sensitiveLocation file_path && (base == .high || base == .medium) then
    shiftUp afterTracking
  else afterTracking

/-- Boolean string-prefix test (`p` is a prefix of `s`). -/
def strStartsWith (s p : String) : Bool :=
  p.data.isPrefixOf s.data

/-! ## Concrete fixtures used by witnesses and counterexamples -/

/-- A risk the detector produces for a tracked `.env` file. -/
def envRisk : SecurityRisk := createRisk ".env" .secret_file "*.env" 24 "t0" true

/-- A risk the detector produces for `template.env`, whose path is
covered by the default global exception `template.*`. -/
def templateRisk : SecurityRisk :=
  createRisk "template.env" .secret_file "*.env" 24 "t0" false

/-- An ignore state with no ignore files and no user decisions. -/
def emptyIgnoreState : IgnoreState :=
  { projectPath := "/home/user/project"
    gitignore := none
    gitupignore := none
    userDecisions := [] }

/-- A monitor state whose `.gitignore` exists but has never been
baselined (`first_scan`). -/
def firstScanMonitorState : MonitorState :=
  { gitignore := some ["*.log"]
    baseline := none
    hashFile := none
    projectFiles := []
    globalExceptions := default_global_exceptions }

/-- Fixture security metadata header. -/
def sampleSecMeta : MMSecurityMetadata :=
  { SecurityLevel := "medium"
    LastSecurityCheck := 0
    NextSecurityCheck := 30
    SecurityScore := 0
    RiskLevel := "unknown"
    CriticalGaps := 0
    HighGaps := 0
    TotalGaps := 0 }

/-- Fixture project metadata header. -/
def sampleProjMeta : MMProjectMetadata :=
  { ProjectType := "python"
    ProjectName := "project"
    ProjectPath := "/home/user/project"
    ProjectHash := "abcd1234"
    GitRemoteUrl := none
    LastModified := none
    FileCount := 0
    DirectoryCount := 0 }

/-- Build a metadata fixture around given decisions and audit trail. -/
def testMetadata (decisions : List (String × MMUserDecision))
    (trail : List MMAuditEntry) : Metadata :=
  { version := "1.0.0"
    created := 0
    user_decisions := decisions
    audit_trail := trail
    security_metadata := sampleSecMeta
    project_metadata := sampleProjMeta
    last_updated := 0 }

/-- A persisted decision whose pattern is the glob `*.log`. -/
def globDecision : MMUserDecision :=
  { Pattern := "*.log"
    Decision := .ignore
    Reason := "generated logs"
    Timestamp := 10
    UserId := "user"
    Confidence := 1
    AutoReview := none
    ExpiresAt := none
    Tags := [] }

/-- Fixture audit environments for two successive operations. -/
def env1 : AuditEnv :=
  { entryId := "id-1", now := 100, userId := "user", projectHash := "abcd1234" }

/-- Second fixture audit environment. -/
def env2 : AuditEnv :=
  { entryId := "id-2", now := 200, userId := "user", projectHash := "abcd1234" }

/-- An assessment of a scan that found nothing. -/
def cleanAssessment : SecurityAssessment :=
  createAssessment "/home/user/project" "t0" "moderate" []

/-- A persisted violations file holding one unresolved violation. -/
def staleViolations : ViolationsFile :=
  .present "t0" "moderate" [{ risk := envRisk, resolved := false }]

/-- A placeholder outcome for the interactive branch (never reached in
the claims' scenarios). -/
def dummyOutcome : ReviewResult × ViolationsFile :=
  ({ status := "completed", risks_resolved := none, blocking_violations := none,
     total_risks := 0 }, .missing)

/-- The audit entry `ImportMetadata` appends (overwrite strategy). -/
def importAudit (env : AuditEnv) (p : String) : MMAuditEntry :=
  { Id := env.entryId
    Action := .imported
    Timestamp := env.now
    UserId := env.userId
    Details := [("import_path", p), ("merge_strategy", "overwrite")]
    GitUpVersion := "0.2.0"
    ProjectHash := env.projectHash }

/-! ## Theorems -/

/-- C1: for every scan outcome and configured security level, the
assessment's `blocking_violations` is exactly the sub-list of `risks`
whose level lies in the level's blocking thresholds (strict blocks
critical/high/medium; moderate and relaxed block critical only),
`blocking_violations` is a sublist of `risks`, and `enforcement_active`
holds iff `blocking_violations` is non-empty. -/
theorem blocking_set_invariant (pp ts level : String) (risks : List SecurityRisk)
    (hlevel : level = "strict" ∨ level = "moderate" ∨ level = "relaxed") :
    (createAssessment pp ts level risks).blocking_violations
        = risks.filter (fun r => (specBlockingLevels level).contains r.risk_level)
      ∧ List.Sublist (createAssessment pp ts level risks).blocking_violations risks
      ∧ ((createAssessment pp ts level risks).enforcement_active = true ↔
          (createAssessment pp ts level risks).blocking_violations ≠ []) := by
  have hth : dictGet blocking_thresholds level [.critical] = specBlockingLevels level := by
    rcases hlevel with h | h | h <;> subst h <;> rfl
  refine ⟨?_, ?_, ?_⟩
  · simp only [createAssessment, hth]
  · simp only [createAssessment]
    exact List.filter_sublist _
  · simp only [createAssessment]
    simp [List.length_pos]

/-- C1 witness: the invariant instantiated at a moderate-level scan
with one critical risk. -/
theorem blocking_set_invariant_witness :
    ("moderate" = "strict" ∨ "moderate" = "moderate" ∨ "moderate" = "relaxed")
    ∧ ((createAssessment "p" "t" "moderate" [envRisk]).blocking_violations
          = [envRisk].filter (fun r => (specBlockingLevels "moderate").contains r.risk_level)
        ∧ List.Sublist (createAssessment "p" "t" "moderate" [envRisk]).blocking_violations
            [envRisk]
        ∧ ((createAssessment "p" "t" "moderate" [envRisk]).enforcement_active = true ↔
            (createAssessment "p" "t" "moderate" [envRisk]).blocking_violations ≠ [])) :=
  ⟨Or.inr (Or.inl rfl),
   blocking_set_invariant "p" "t" "moderate" [envRisk] (Or.inr (Or.inl rfl))⟩

/-- C4 counterexample: a tracked risk with medium baseline
(`large_binary`) whose path contains `config` is reported at HIGH by
`_determine_risk_level`, while the claim's rule (tracked shift plus a
further location shift for medium baselines) demands CRITICAL. -/
theorem severity_upgrade_counterexample :
    determineRiskLevel .large_binary "config.zip" true = .high
    ∧ claimedRiskLevel .large_binary "config.zip" true = .critical
    ∧ determineRiskLevel .large_binary "config.zip" true
        ≠ claimedRiskLevel .large_binary "config.zip" true := by decide

/-- C4 amended: the tracked shift and the sensitive-location shift are
mutually exclusive — when the file is tracked and the baseline is high,
medium or low, the severity is the baseline shifted exactly one
(saturating) step and the location bump never applies; otherwise the
location bump shifts high or medium baselines one step. -/
theorem severity_rule_characterization (t : SecurityRiskType) (path : String)
    (tracked : Bool) :
    determineRiskLevel t path tracked =
      (if tracked
          && (base_levels t == .high || base_levels t == .medium || base_levels t == .low) then
        shiftUp (base_levels t)
      else if sensitiveLocation path && (base_levels t == .high || base_levels t == .medium) then
        shiftUp (base_levels t)
      else base_levels t) := by
  cases t <;> cases tracked <;> cases hs : sensitiveLocation path <;>
    simp [determineRiskLevel, base_levels, shiftUp, hs]

/-- C8: the compliance verdict is `RISK_DETECTED` iff the fresh
analysis found potential secrets, else `PARTIAL_COMPLIANCE` iff the
shadow ignore file is absent, else `COMPLIANT`. -/
theorem compliance_determination (ts : String) (analysis : AnalysisSlice)
    (fc : FileCompliance) :
    ((runComplianceCheck ts analysis fc).overall_status = "RISK_DETECTED" ↔
        0 < analysis.potential_secrets.length)
    ∧ ((runComplianceCheck ts analysis fc).overall_status = "PARTIAL_COMPLIANCE" ↔
        analysis.potential_secrets.length = 0 ∧ fc.gitupignore_exists = false)
    ∧ ((runComplianceCheck ts analysis fc).overall_status = "COMPLIANT" ↔
        analysis.potential_secrets.length = 0 ∧ fc.gitupignore_exists = true) := by
  have h1 : ("RISK_DETECTED" : String) ≠ "PARTIAL_COMPLIANCE" := by decide
  have h2 : ("RISK_DETECTED" : String) ≠ "COMPLIANT" := by decide
  have h3 : ("PARTIAL_COMPLIANCE" : String) ≠ "RISK_DETECTED" := by decide
  have h4 : ("PARTIAL_COMPLIANCE" : String) ≠ "COMPLIANT" := by decide
  have h5 : ("COMPLIANT" : String) ≠ "RISK_DETECTED" := by decide
  have h6 : ("COMPLIANT" : String) ≠ "PARTIAL_COMPLIANCE" := by decide
  rcases Nat.eq_zero_or_pos analysis.potential_secrets.length with h | h <;>
    cases hfc : fc.gitupignore_exists <;>
      simp [runComplianceCheck, determineComplianceStatus, h, hfc,
        Nat.pos_iff_ne_zero, h1, h2, h3, h4, h5, h6] <;>
      exact List.length_pos.mp h

/-- C10: a missing or unparseable `violations.json` makes
`check_violations` answer `(False, [])`, which coincides with the
answer for an empty persisted blocking set, and `enforce_security`
returns without raising for every operation. -/
theorem enforcer_missing_violations_file (operation ts lvl : String) :
    checkViolations .missing = (false, [])
    ∧ checkViolations .corrupt = (false, [])
    ∧ checkViolations .missing = checkViolations (.present ts lvl [])
    ∧ checkViolations .corrupt = checkViolations (.present ts lvl [])
    ∧ enforceSecurity operation .missing = .ok ()
    ∧ enforceSecurity operation .corrupt = .ok () :=
  ⟨rfl, rfl, rfl, rfl, rfl, rfl⟩

/-- C2 counterexample: a persisted glob decision `*.log` is not applied
by `GetUserDecision` to the risk path `app.log`, although
`fnmatch("app.log", "*.log")` holds: the lookup compares the stored
pattern string with the query for equality instead of glob-matching. -/
theorem decision_lookup_counterexample :
    (getUserDecision (testMetadata [("d1", globDecision)] []) env1 "app.log").1 = none
    ∧ fnmatch "app.log" "*.log" = true := by decide

/-- C2 amended: `GetUserDecision` returns the first stored decision
whose `Pattern` equals the queried string exactly — `None` when that
first match is expired — so every returned decision has `Pattern` equal
to the query and is unexpired; glob semantics and exact-over-glob
precedence play no part in the lookup. -/
theorem decision_lookup_exact_equality (m : Metadata) (env : AuditEnv) (q : String) :
    (getUserDecision m env q).1 =
      ((m.user_decisions.find? (fun kv => kv.2.Pattern == q)).bind
        (fun kv => if isDecisionExpired env.now kv.2 then none else some kv.2))
    ∧ ((getUserDecision m env q).1.all
        (fun d => d.Pattern == q && !isDecisionExpired env.now d)) = true := by
  cases hf : m.user_decisions.find? (fun kv => kv.2.Pattern == q) with
  | none => exact ⟨by simp [getUserDecision, hf], by simp [getUserDecision, hf]⟩
  | some kv =>
    have hp : (kv.2.Pattern == q) = true := by simpa using List.find?_some hf
    cases hex : isDecisionExpired env.now kv.2 with
    | false =>
      exact ⟨by simp [getUserDecision, hf, hex], by simp [getUserDecision, hf, hex, hp]⟩
    | true =>
      exact ⟨by simp [getUserDecision, hf, hex], by simp [getUserDecision, hf, hex]⟩

/-- C3 counterexample: a review whose scan reports zero risks returns
`status = clean` but leaves a previously persisted, still-unresolved
violation set in place — `check_violations` still reports violations
afterwards, so the enforcer's set was not cleared. -/
theorem clean_review_counterexample :
    (runSecurityReview cleanAssessment false dummyOutcome "t1" staleViolations).1.status
        = "clean"
    ∧ (runSecurityReview cleanAssessment false dummyOutcome "t1" staleViolations).2
        = staleViolations
    ∧ (checkViolations
        (runSecurityReview cleanAssessment false dummyOutcome "t1" staleViolations).2).1
        = true := by decide

/-- C3 amended: when the scan reports `total_risks == 0`,
`run_security_review` returns the clean result and leaves the
enforcer's persisted violations file untouched (it is cleared only by
`_update_enforcement_status` during an interactive review). -/
theorem clean_review_leaves_enforcer (a : SecurityAssessment) (interactive : Bool)
    (outcome : ReviewResult × ViolationsFile) (ts : String) (vf : ViolationsFile)
    (h : a.total_risks = 0) :
    runSecurityReview a interactive outcome ts vf =
      ({ status := "clean", risks_resolved := some 0, blocking_violations := none,
         total_risks := 0 }, vf) := by
  simp [runSecurityReview, h]

/-- C3 witness: the amended statement instantiated at a clean scan over
a stale violations file. -/
theorem clean_review_leaves_enforcer_witness :
    cleanAssessment.total_risks = 0
    ∧ runSecurityReview cleanAssessment false dummyOutcome "t1" staleViolations =
        ({ status := "clean", risks_resolved := some 0, blocking_violations := none,
           total_risks := 0 }, staleViolations) :=
  ⟨by decide,
   clean_review_leaves_enforcer cleanAssessment false dummyOutcome "t1" staleViolations
     (by decide)⟩

/-- C5 counterexample: the risk on `template.env` is covered by the
default global exception `template.*`, yet `_filter_resolved_risks`
retains it — the resolution filter never consults global exceptions. -/
theorem resolution_filter_counterexample :
    filterResolvedRisks emptyIgnoreState [templateRisk] = [templateRisk]
    ∧ (checkGlobalExceptionCoverage default_global_exceptions templateRisk.file_path).1
        = true := by decide

/-- C5 amended: the filter retains exactly the risks that are neither
matched by the user's ignore file (via `_is_file_ignored`) nor ignored
by `ShouldIgnoreFile` (gitignore, shadow ignore, or a stored `safe`
decision); global exceptions are not consulted and credential risks are
never dropped by the re-read check, which always reports unresolved. -/
theorem resolution_filter_characterization (st : IgnoreState)
    (risks : List SecurityRisk) (r : SecurityRisk) :
    r ∈ filterResolvedRisks st risks ↔
      r ∈ risks ∧ isFileIgnored st r.file_path = false
        ∧ (shouldIgnoreFile st r.file_path).1 = false := by
  simp [filterResolvedRisks, List.mem_filter, isCredentialPatternResolved]

/-- Any risk produced by the glob loop of `patternRisks` is an
application of its risk constructor to a risk type and a matched
pattern. -/
theorem patternRisks_shape (relp : String) (mk : SecurityRiskType → String → SecurityRisk)
    (r : SecurityRisk) (hr : r ∈ patternRisks relp mk) :
    ∃ tp pat, r = mk tp pat := by
  simp only [patternRisks, List.mem_filterMap] at hr
  obtain ⟨a, -, hmk⟩ := hr
  cases hfind : a.2.find? (fun pat => fnmatch relp pat) <;> rw [hfind] at hmk
  · exact absurd hmk (by simp)
  · exact ⟨a.1, _, by injection hmk with h; exact h.symm⟩

/-- `a` is a boolean prefix of `a ++ b`. -/
theorem strStartsWith_append (a b : String) : strStartsWith (a ++ b) a = true := by
  simp [strStartsWith, String.data_append, List.isPrefixOf_iff_prefix]

/-- C6: scanning a symbolic link is independent of the content behind
the link (and of the content scanner entirely), and every emitted risk
is tagged either `symlink_path:` (the link's own path matched a
category glob) or `symlink_target:` (the textual target matched a
suspicious-target pattern). -/
theorem symlink_containment (cm cm' : String → String → Bool)
    (path target tc tc' mtime : String) (size : Nat) (tracked : Bool) :
    scanFile cm
        { rel_path := path, size := size, mtime := mtime, tracked := tracked,
          kind := .symlink target tc }
      = scanFile cm'
          { rel_path := path, size := size, mtime := mtime, tracked := tracked,
            kind := .symlink target tc' }
    ∧ ((scanFile cm
          { rel_path := path, size := size, mtime := mtime, tracked := tracked,
            kind := .symlink target tc }).all
        (fun r => strStartsWith r.pattern_matched "symlink_path:"
          || strStartsWith r.pattern_matched "symlink_target:")) = true := by
  constructor
  · rfl
  · show (scanSymbolicLink path target size mtime tracked).all _ = true
    rw [List.all_eq_true]
    intro r hr
    unfold scanSymbolicLink at hr
    rcases List.mem_append.mp hr with h | h
    · obtain ⟨tp, pat, hre⟩ := patternRisks_shape _ _ _ h
      subst hre
      simp [createRisk, strStartsWith_append]
    · revert h
      cases hfind : suspicious_targets.find? (fun pat => fnmatch (strLower target) pat) with
      | none => intro h; exact absurd h (by simp)
      | some pat =>
        intro h
        simp only [List.mem_singleton] at h
        subst h
        simp [createRisk, strStartsWith_append]

/-- C7 counterexample: with a `.gitignore` present but never baselined,
`analyze_gitignore_delta` reports `has_changes = true`, and — nothing
having changed in between — a second call reports `has_changes = true`
again, not `false` as the claim states. -/
theorem ignore_delta_counterexample :
    (analyzeGitignoreDelta firstScanMonitorState "t1").has_changes = true
    ∧ (analyzeGitignoreDelta firstScanMonitorState "t2").has_changes = true := by decide

/-- The delta's `has_changes` flag is exactly the change-detector's
verdict. -/
theorem analyzeGitignoreDelta_has_changes (st : MonitorState) (t : String) :
    (analyzeGitignoreDelta st t).has_changes = (detectGitignoreChanges st).1 := by
  unfold analyzeGitignoreDelta
  cases h : (detectGitignoreChanges st).1 <;> simp [h]

/-- C7 amended: `analyze_gitignore_delta` is read-only, so a second
call over unchanged state repeats the first verdict; the second call
reports `has_changes = false` precisely under `scan_project`'s
protocol, which runs `update_baseline` after a delta that reported
changes. -/
theorem ignore_delta_baseline_idempotence (st : MonitorState) (t1 t2 : String) :
    (analyzeGitignoreDelta
        (if (analyzeGitignoreDelta st t1).has_changes then updateBaseline st else st)
        t2).has_changes = false := by
  rw [analyzeGitignoreDelta_has_changes]
  cases h1 : (analyzeGitignoreDelta st t1).has_changes with
  | false =>
    rw [analyzeGitignoreDelta_has_changes] at h1
    simpa using h1
  | true =>
    simp only [if_pos]
    unfold updateBaseline
    cases hg : st.gitignore <;> simp [detectGitignoreChanges, hg]

/-- C9 counterexample: exporting a ledger with an empty audit trail
and then importing the file back (overwrite) does not restore the
audit trail — the import appends an `imported` audit entry. -/
theorem export_import_counterexample :
    (importMetadata (exportMetadata (testMetadata [] []) env1 "backup.json").2
        (exportMetadata (testMetadata [] []) env1 "backup.json").1 .overwrite env2
        "backup.json").audit_trail
      ≠ (testMetadata [] []).audit_trail := by decide

/-- C9 amended: the overwrite-strategy round trip restores the user
decisions and the security and project metadata exactly; the audit
trail equals the exported trail with one `imported` entry appended
(truncated to the most recent 1000) and `last_updated` is restamped
at import time. -/
theorem export_import_roundtrip (m : Metadata) (e1 e2 : AuditEnv) (p : String) :
    (importMetadata (exportMetadata m e1 p).2 (exportMetadata m e1 p).1
        .overwrite e2 p).user_decisions = m.user_decisions
    ∧ (importMetadata (exportMetadata m e1 p).2 (exportMetadata m e1 p).1
        .overwrite e2 p).security_metadata = m.security_metadata
    ∧ (importMetadata (exportMetadata m e1 p).2 (exportMetadata m e1 p).1
        .overwrite e2 p).project_metadata = m.project_metadata
    ∧ (importMetadata (exportMetadata m e1 p).2 (exportMetadata m e1 p).1
        .overwrite e2 p).last_updated = e2.now
    ∧ (importMetadata (exportMetadata m e1 p).2 (exportMetadata m e1 p).1
        .overwrite e2 p).audit_trail =
      (if 1000 < (m.audit_trail ++ [importAudit e2 p]).length then
        (m.audit_trail ++ [importAudit e2 p]).drop
          ((m.audit_trail ++ [importAudit e2 p]).length - 1000)
      else m.audit_trail ++ [importAudit e2 p]) :=
  ⟨rfl, rfl, rfl, rfl, rfl⟩

end GitUp
